import Mathlib

/-!
Verification of the rxjs-ws client-side WebSocket connection manager.

The development shallowly embeds the parts of the implementation that the
properties below are about:

* the outbound queue: class QueueSubject (src/src/queue-subject.ts) composed
  with the serializing pipeline (field requests$ of WebSocketConnector,
  src/src/core/web-socket-connector.ts lines 65-66) and the socket-side
  consumer subscription (createWebSocketObservable);
* the connect/disconnect usage guards (web-socket-connector.ts lines 94-97
  and 156-161);
* the connect pipeline with its retry configuration, status transitions and
  forceReconnect handling (web-socket-connector.ts lines 99-141, 163-165 and
  the events observer at lines 68-82);
* the per-request conversation of a stream handler produced by
  getStreamHandler (web-socket-connector.ts lines 167-298).

Stateful rxjs code is modelled by explicit state passing: each cluster of
behaviour becomes a state structure plus step functions, and execution traces
are folds of step functions over event lists.  Throwing code returns Except.
-/

namespace RxjsWs

/-- Connection status values, from CONNECTION_STATUS in constants.ts. -/
inductive ConnectionStatus where
  | uninitialized
  | connected
  | reconnecting
  | disconnected
deriving DecidableEq, Repr

/-- Stream handler status values, from STREAM_STATUS in constants.ts. -/
inductive StreamStatus where
  | uninitialized
  | ready
  | loading
deriving DecidableEq, Repr

/-- The fixed sentinel FORCE_RECONNECT_MESSAGE from constants.ts. -/
def FORCE_RECONNECT_MESSAGE : String := "force reconnect"

/-!
Outbound queue model.

State of the outbound path: the QueueSubject requestsQueue$ (queue-subject.ts),
observed through requests$ = requestsQueue$.pipe(map(serializer))
(web-socket-connector.ts lines 65-66), whose subscriber inside
createWebSocketObservable forwards each serialized value to socket.send.

Fields mirror the rxjs Subject bookkeeping that QueueSubject.next reads:
closed is Subject.closed (set only by Subject.unsubscribe, which this code
base never calls), isStopped is set by complete, and consumerActive plays the
role of Subject.observed (there is at most one subscriber in this usage: the
requests subscription of the current socket).  A throwing serializer is an
Except-valued function; when it errors, the map subscriber errors its
destination, which (having no error callback) reports the error
asynchronously, and the subscription to the subject is torn down.
-/
structure Outbound (T U : Type) where
  serializer : T → Except String U
  closed : Bool
  isStopped : Bool
  consumerActive : Bool
  queuedValues : List T
  delivered : List U
  reported : List String

namespace Outbound

/-- Delivery of one value through map(serializer) to the socket consumer.
A serializer throw errors the map subscriber: the value is not delivered,
the error is reported asynchronously, and the consumer subscription closes. -/
def deliverOne {T U : Type} (s : Outbound T U) (v : T) : Outbound T U :=
  if s.consumerActive then
    match s.serializer v with
    | .ok u => { s with delivered := s.delivered ++ [u] }
    | .error e => { s with consumerActive := false, reported := s.reported ++ [e] }
  else s

/-- Subject.prototype.next: throws if closed (modelled by the caller), does
nothing once stopped, otherwise notifies the current observers. -/
def subjectNext {T U : Type} (s : Outbound T U) (v : T) : Outbound T U :=
  if s.isStopped then s else deliverOne s v

/-- QueueSubject.next (queue-subject.ts lines 6-9): if closed or observed,
call super.next (which throws the ObjectUnsubscribedError when closed),
otherwise append the value to queuedValues. -/
def next {T U : Type} (s : Outbound T U) (v : T) : Except String (Outbound T U) :=
  if s.closed || s.consumerActive then
    if s.closed then .error "ObjectUnsubscribedError"
    else .ok (subjectNext s v)
  else .ok { s with queuedValues := s.queuedValues ++ [v] }

/-- QueueSubject.subscribe (queue-subject.ts lines 11-18): super.subscribe
registers the consumer (a stopped subject instead completes it immediately),
then any queued values are flushed through super.next and the buffer is
cleared. -/
def subscribe {T U : Type} (s : Outbound T U) : Outbound T U :=
  let s1 := if s.isStopped then s else { s with consumerActive := true }
  let s2 := s1.queuedValues.foldl subjectNext s1
  { s2 with queuedValues := [] }

/-- Subject.prototype.complete, as invoked by the events observer
(web-socket-connector.ts line 79): stops the subject and completes and
removes every observer. -/
def complete {T U : Type} (s : Outbound T U) : Outbound T U :=
  if s.isStopped then s else { s with isStopped := true, consumerActive := false }

/-- Teardown of the requests subscription (createWebSocketObservable teardown
unsubscribes requestsSubscription): the consumer detaches without stopping
the subject. -/
def unsubscribeConsumer {T U : Type} (s : Outbound T U) : Outbound T U :=
  { s with consumerActive := false }

/-- Operations performed on the outbound path by the connector. -/
inductive Op (T : Type) where
  | send (v : T)
  | subscribe
  | unsubscribeConsumer
  | complete

/-- One operation.  WebSocketConnector.send (lines 144-146) is exactly
requestsQueue$.next. -/
def applyOp {T U : Type} (s : Outbound T U) : Op T → Except String (Outbound T U)
  | .send v => next s v
  | .subscribe => .ok (subscribe s)
  | .unsubscribeConsumer => .ok (unsubscribeConsumer s)
  | .complete => .ok (complete s)

/-- Run a sequence of outbound operations, stopping at the first synchronous
throw. -/
def run {T U : Type} : Outbound T U → List (Op T) → Except String (Outbound T U)
  | s, [] => .ok s
  | s, op :: ops =>
    match applyOp s op with
    | .ok s1 => run s1 ops
    | .error e => .error e

/-- Initial outbound state of a fresh WebSocketConnector. -/
def init {T U : Type} (ser : T → Except String U) : Outbound T U :=
  { serializer := ser
    closed := false
    isStopped := false
    consumerActive := false
    queuedValues := []
    delivered := []
    reported := [] }

/-- The list of successfully serialized values of a payload list, in order. -/
def serializeOks {T U : Type} (ser : T → Except String U) (l : List T) : List U :=
  l.filterMap fun v => (ser v).toOption

/-- A list of send operations, one per payload. -/
def sends {T : Type} (l : List T) : List (Op T) := l.map Op.send

end Outbound

/-!
Connect/disconnect usage guards.

The guard state abstracts the two fields of WebSocketConnector that the
synchronous guards of connect (lines 94-97) and disconnect (lines 156-161)
read and write: whether eventsSubscription is set, and the current value of
the status subject.
-/
structure GuardState where
  hasEventsSubscription : Bool
  status : ConnectionStatus
deriving DecidableEq, Repr

namespace GuardState

/-- Fresh connector: no subscription, status uninitialized. -/
def initial : GuardState :=
  { hasEventsSubscription := false, status := ConnectionStatus.uninitialized }

/-- WebSocketConnector.connect, guard part (line 97): throws when an events
subscription already exists, otherwise installs the subscription.  The status
itself is only changed later by pipeline events, never synchronously here. -/
def connect (s : GuardState) : Except String GuardState :=
  if s.hasEventsSubscription then .error "socket connection is already opened"
  else .ok { s with hasEventsSubscription := true }

/-- WebSocketConnector.disconnect (lines 156-161): throws when no events
subscription exists; otherwise pushes the disconnected status, unsubscribes,
and clears the eventsSubscription field. -/
def disconnect (s : GuardState) : Except String GuardState :=
  if s.hasEventsSubscription then
    .ok { hasEventsSubscription := false, status := ConnectionStatus.disconnected }
  else .error "socket connection was not yet established"

end GuardState

/-!
Connect pipeline machine.

Model of the subscription built by connect (web-socket-connector.ts lines
99-141) together with the events observer (lines 68-82): the merged source of
socket opens and forceReconnect throws, the switchMap that fires
retryConfig.onSuccess and pushes the connected status, and the rxjs retry
operator configured with resetOnSuccess: true whose delay callback pushes the
reconnecting status exactly when its retryCount argument equals 1.

rxjs retry keeps an error counter soFar: each source value resets it to 0
(resetOnSuccess), and on an error it retries while soFar < count (count
absent meaning unbounded), passing soFar + 1 as retryCount to the delay
callback; otherwise the error reaches the events observer, which pushes the
disconnected status and errors the events subject.
-/

/-- The retryConfig argument of connect: whether an onSuccess callback is
present, and the optional retry count (types.ts ConnectConfig). -/
structure RetryCfg where
  hasOnSuccess : Bool
  count : Option Nat
deriving DecidableEq, Repr

/-- Events observed by the connect pipeline while it is subscribed. -/
inductive ConnEvent where
  | openEvt
  | msgEvt
  | errEvt (msg : String)
  | forceReconnectEvt (reason : Option String)
deriving DecidableEq, Repr

/-- Observable state of the connect pipeline: the current status value,
the retry error counter, instrumentation counting onSuccess invocations and
status emissions of reconnecting, the terminal error of the events subject
(if any), and whether the forceReconnect warning was printed. -/
structure ConnState where
  status : ConnectionStatus
  retryCount : Nat
  onSuccessCalls : Nat
  reconnectingEmits : Nat
  terminalError : Option String
  warned : Bool
deriving DecidableEq, Repr

namespace ConnState

/-- State right after connect is called (the status subject still holds its
initial uninitialized value). -/
def initial : ConnState :=
  { status := ConnectionStatus.uninitialized
    retryCount := 0
    onSuccessCalls := 0
    reconnectingEmits := 0
    terminalError := none
    warned := false }

/-- Transport open (socket onopen, through merge, the type filter and
switchMap, lines 113-121): when the current status value is reconnecting and
retryConfig.onSuccess exists, invoke it; then push the connected status. -/
def openStep (cfg : Option RetryCfg) (s : ConnState) : ConnState :=
  let onSucc := match cfg with | none => false | some rc => rc.hasOnSuccess
  let s1 :=
    if s.status = ConnectionStatus.reconnecting ∧ onSucc = true then
      { s with onSuccessCalls := s.onSuccessCalls + 1 }
    else s
  { s1 with status := ConnectionStatus.connected }

/-- An inbound message emitted by the inner observable: with a retryConfig
the retry operator (resetOnSuccess: true, line 124) resets its error counter;
without one the identity operator is in place (line 139). -/
def msgStep (cfg : Option RetryCfg) (s : ConnState) : ConnState :=
  match cfg with
  | none => s
  | some _ => { s with retryCount := 0 }

/-- A pipeline error.  Without a retryConfig it reaches the events observer
(lines 72-75): the disconnected status is pushed and the events subject errors.
With one, retry checks its counter against count (lines 122-138); when it
retries, the delay callback pushes the reconnecting status exactly when the
new counter value is 1 (lines 126-129); on exhaustion the error reaches the
events observer as above. -/
def errStep (cfg : Option RetryCfg) (m : String) (s : ConnState) : ConnState :=
  match cfg with
  | none =>
    { s with status := ConnectionStatus.disconnected, terminalError := some m }
  | some rc =>
    let canRetry := match rc.count with | none => true | some c => s.retryCount < c
    if canRetry then
      let n := s.retryCount + 1
      if n = 1 then
        { s with retryCount := n
                 status := ConnectionStatus.reconnecting
                 reconnectingEmits := s.reconnectingEmits + 1 }
      else { s with retryCount := n }
    else
      { s with status := ConnectionStatus.disconnected, terminalError := some m }

/-- WebSocketConnector.forceReconnect (lines 163-165) pushes the reason
(defaulting to FORCE_RECONNECT_MESSAGE) into forceReconnect$, whose tap
(lines 101-110) warns when no retryConfig is present and then throws an Error
carrying that message, which propagates through the pipeline like any other
error. -/
def forceStep (cfg : Option RetryCfg) (reason : Option String) (s : ConnState) :
    ConnState :=
  let m := reason.getD FORCE_RECONNECT_MESSAGE
  let s1 := match cfg with | none => { s with warned := true } | some _ => s
  errStep cfg m s1

/-- One pipeline event.  Once the events subject has errored the subscription
is closed and nothing further happens. -/
def step (cfg : Option RetryCfg) (s : ConnState) : ConnEvent → ConnState :=
  fun e =>
    if s.terminalError.isSome then s
    else
      match e with
      | .openEvt => openStep cfg s
      | .msgEvt => msgStep cfg s
      | .errEvt m => errStep cfg m s
      | .forceReconnectEvt r => forceStep cfg r s

/-- Run the connect pipeline over a trace of events. -/
def run (cfg : Option RetryCfg) (tr : List ConnEvent) : ConnState :=
  tr.foldl (step cfg) initial

end ConnState

/-- Count of the failure events (errors and forceReconnect throws) that are
the first failure since the last received message, or since subscription
start.  The Boolean argument records whether a failure has already occurred
with no message received since (the retry counter is then nonzero, because
resetOnSuccess resets it only on source emissions). -/
def countFreshFailures : List ConnEvent → Bool → Nat
  | [], _ => 0
  | ConnEvent.errEvt _ :: tr, inEp =>
    (if inEp then 0 else 1) + countFreshFailures tr true
  | ConnEvent.forceReconnectEvt _ :: tr, inEp =>
    (if inEp then 0 else 1) + countFreshFailures tr true
  | ConnEvent.msgEvt :: tr, _ => countFreshFailures tr false
  | ConnEvent.openEvt :: tr, inEp => countFreshFailures tr inEp

/-!
Stream handler conversation model.

getStreamHandler (web-socket-connector.ts lines 167-298) keeps, per handler,
a BehaviorSubject named by the dollar sign holding the visible StreamResponse
value, and processes submitted requests strictly sequentially through
concatMap.  The model below captures the processing of the request currently
handed to concatMap (lines 199-280): the wait for the connected status, the
loading emission with its send side effect, the merge of ready emissions into
the visible value, and the cancellation conditions expressed by
race(wsDisconnectedStatus$, newRequest$) piped through
observeOn(asyncScheduler).
-/

/-- The visible state of a stream handler (types.ts StreamResponse); the
optional fields model the possibly-undefined object properties. -/
structure StreamResponse (TRes TReq TErr : Type) where
  status : StreamStatus
  response : Option TRes
  request : Option TReq
  error : Option TErr
deriving DecidableEq, Repr

/-- The configuration of getStreamHandler relevant here (lines 175-181),
with its defaults.  transformRequests is the identity and transformResponse
is abstracted: conversation events carry ready emissions directly. -/
structure HandlerParams (TRes : Type) where
  defaultResponse : Option TRes
  resetResponseOnNextRequest : Bool
  resetErrorOnNextRequest : Bool
  awaitReadyStatusBeforeNextRequest : Bool

/-- Default handler configuration values (lines 176-180). -/
def HandlerParams.default (TRes : Type) : HandlerParams TRes :=
  { defaultResponse := none
    resetResponseOnNextRequest := true
    resetErrorOnNextRequest := true
    awaitReadyStatusBeforeNextRequest := true }

/-- The initial value of the handler state (lines 186-189): status
uninitialized, response the configured default, no request and no error. -/
def uninitializedValue {TRes TReq TErr : Type} (p : HandlerParams TRes) :
    StreamResponse TRes TReq TErr :=
  { status := StreamStatus.uninitialized
    response := p.defaultResponse
    request := none
    error := none }

/-- One emission of the ready$ observable (lines 209-221): a successful
transformed response carries the fields response and error (explicitly
undefined); a caught transform error carries only the field error. -/
inductive ReadyVal (TRes TErr : Type) where
  | success (r : TRes)
  | failure (e : TErr)
deriving DecidableEq, Repr

/-- The shallow merge performed by concat$ (lines 274-278): spread of the
previous value then of the emission, so only the fields present in the
emission are overwritten. -/
def mergeReady {TRes TReq TErr : Type} (cur : StreamResponse TRes TReq TErr) :
    ReadyVal TRes TErr → StreamResponse TRes TReq TErr
  | .success r => { cur with status := StreamStatus.ready, response := some r, error := none }
  | .failure e => { cur with status := StreamStatus.ready, error := some e }

/-- The loading emission (lines 259-272): all four fields are present, so the
shallow merge replaces the whole visible value; response and error are reset
or retained according to the configuration, and the send side effect fires. -/
def loadingValue {TRes TReq TErr : Type} (p : HandlerParams TRes)
    (cur : StreamResponse TRes TReq TErr) (req : TReq) :
    StreamResponse TRes TReq TErr :=
  { status := StreamStatus.loading
    response := if p.resetResponseOnNextRequest then none else cur.response
    request := some req
    error := if p.resetErrorOnNextRequest then none else cur.error }

/-- Phase of the conversation for the request currently inside concatMap:
before the connected status arrives only loading$ is subscribed; after the
loading emission concat subscribes ready$.pipe(takeUntil(...)), making the
conversation in flight; cancellation by the takeUntil notifier (or loop
progress) ends it. -/
inductive ConvPhase where
  | awaitingConnect
  | inFlight
  | cancelled
deriving DecidableEq, Repr

/-- Conversation state: the phase, the visible handler value, whether ready$
(a shareReplay(1) feed) has emitted for this request, whether a different
request has been observed by newRequest$, and the payloads handed to
WebSocketConnector.send. -/
structure Conversation (TRes TReq TErr : Type) where
  phase : ConvPhase
  dollar : StreamResponse TRes TReq TErr
  readySeen : Bool
  nextRequested : Bool
  sent : List TReq
deriving DecidableEq, Repr

/-- Conversation state when concatMap hands over a request. -/
def Conversation.start {TRes TReq TErr : Type}
    (d : StreamResponse TRes TReq TErr) : Conversation TRes TReq TErr :=
  { phase := ConvPhase.awaitingConnect
    dollar := d
    readySeen := false
    nextRequested := false
    sent := [] }

/-- Events affecting the current conversation. -/
inductive ConvEvent (TRes TErr : Type) where
  | statusChange (st : ConnectionStatus)
  | ready (v : ReadyVal TRes TErr)
  | newRequest
deriving DecidableEq, Repr

/-- One conversation event, net synchronous effect (the one-tick deferral of
cancellation by observeOn(asyncScheduler) is modelled separately below):

* a status event while awaiting: wsConnectedStatus$ (lines 254-257) lets
  loading$ emit, which merges the loading value and sends the request
  (lines 259-272); other statuses do nothing, since wsDisconnectedStatus$ is
  only subscribed through takeUntil once the conversation is in flight;
* a status event while in flight: the wsDisconnectedStatus$ filter
  (lines 223-233) matches disconnected and reconnecting, its tap resets the
  visible value to the initial one, and the race completes the takeUntil
  notifier, tearing the inbound subscription down;
* a ready emission while in flight is merged into the visible value; if a
  newer request is already waiting (and the configuration awaits a ready
  status), newRequest$ completes and the conversation is cancelled;
* a new request while in flight cancels immediately when
  awaitReadyStatusBeforeNextRequest is false; otherwise it cancels right away
  when ready$ has already emitted (shareReplay(1) replays that emission to
  ready$.pipe(take(1)) inside newRequest$, lines 235-246), and otherwise
  leaves the new request waiting for the next ready emission. -/
def convStep {TRes TReq TErr : Type} (p : HandlerParams TRes) (req : TReq)
    (s : Conversation TRes TReq TErr) :
    ConvEvent TRes TErr → Conversation TRes TReq TErr
  | .statusChange st =>
    match s.phase with
    | .awaitingConnect =>
      if st = ConnectionStatus.connected then
        { s with phase := ConvPhase.inFlight
                 dollar := loadingValue p s.dollar req
                 sent := s.sent ++ [req] }
      else s
    | .inFlight =>
      if st = ConnectionStatus.disconnected ∨ st = ConnectionStatus.reconnecting then
        { s with dollar := uninitializedValue p, phase := ConvPhase.cancelled }
      else s
    | .cancelled => s
  | .ready v =>
    match s.phase with
    | .inFlight =>
      let s1 := { s with dollar := mergeReady s.dollar v, readySeen := true }
      if s.nextRequested ∧ p.awaitReadyStatusBeforeNextRequest then
        { s1 with phase := ConvPhase.cancelled }
      else s1
    | _ => s
  | .newRequest =>
    match s.phase with
    | .inFlight =>
      if p.awaitReadyStatusBeforeNextRequest then
        if s.readySeen then { s with phase := ConvPhase.cancelled }
        else { s with nextRequested := true }
      else { s with phase := ConvPhase.cancelled }
    | _ => s

/-- Run a conversation over a list of events. -/
def convRun {TRes TReq TErr : Type} (p : HandlerParams TRes) (req : TReq)
    (s : Conversation TRes TReq TErr) (evs : List (ConvEvent TRes TErr)) :
    Conversation TRes TReq TErr :=
  evs.foldl (convStep p req) s

/-!
Same-instant scheduling model.

The takeUntil notifier is race(wsDisconnectedStatus$, newRequest$) piped
through observeOn(asyncScheduler) (lines 248-252): every cancellation is
re-scheduled onto the async scheduler, while the visible-value updates done
by the tap of concat$ and by the tap of wsDisconnectedStatus$ run
synchronously.  An instant is modelled as a list of simultaneous source
firings: each firing applies its synchronous effects immediately and appends
its scheduler work to a pending queue, which drains after all firings.
-/

/-- An observable effect on the handler. -/
inductive HandlerEffect (TRes TReq TErr : Type) where
  | dollarNext (v : StreamResponse TRes TReq TErr)
  | cancelCurrent
deriving DecidableEq, Repr

/-- Apply one effect to the conversation. -/
def applyEffect {TRes TReq TErr : Type} (c : Conversation TRes TReq TErr) :
    HandlerEffect TRes TReq TErr → Conversation TRes TReq TErr
  | .dollarNext v => { c with dollar := v }
  | .cancelCurrent => { c with phase := ConvPhase.cancelled }

/-- State of one logical instant: the conversation, the effects that have
taken effect so far (in order), and the work queued on the async scheduler. -/
structure InstantState (TRes TReq TErr : Type) where
  conv : Conversation TRes TReq TErr
  log : List (HandlerEffect TRes TReq TErr)
  pendingAsync : List (HandlerEffect TRes TReq TErr)
deriving DecidableEq, Repr

/-- Apply an effect synchronously, recording it in the log. -/
def emitSync {TRes TReq TErr : Type} (ist : InstantState TRes TReq TErr)
    (eff : HandlerEffect TRes TReq TErr) : InstantState TRes TReq TErr :=
  { ist with conv := applyEffect ist.conv eff, log := ist.log ++ [eff] }

/-- Schedule an effect on the async scheduler. -/
def scheduleAsync {TRes TReq TErr : Type} (ist : InstantState TRes TReq TErr)
    (eff : HandlerEffect TRes TReq TErr) : InstantState TRes TReq TErr :=
  { ist with pendingAsync := ist.pendingAsync ++ [eff] }

/-- Source firings that can coincide in one logical instant while the
conversation is in flight. -/
inductive Firing (TRes TErr : Type) where
  | readyFiring (v : ReadyVal TRes TErr)
  | disconnectFiring
deriving DecidableEq, Repr

/-- One source firing.

A ready firing multicasts through shareReplay(1): the concat$ subscriber
merges the emission into the visible value synchronously (lines 274-278),
and when a newer request is waiting on ready$.pipe(take(1)) the race emits,
so observeOn(asyncScheduler) schedules the cancellation.

A disconnect firing runs the tap of wsDisconnectedStatus$ synchronously,
resetting the visible value (lines 229-231), and likewise schedules the
cancellation through observeOn(asyncScheduler). -/
def fire {TRes TReq TErr : Type} (p : HandlerParams TRes)
    (ist : InstantState TRes TReq TErr) :
    Firing TRes TErr → InstantState TRes TReq TErr
  | .readyFiring v =>
    let ist1 := emitSync ist (HandlerEffect.dollarNext (mergeReady ist.conv.dollar v))
    let ist2 := { ist1 with conv := { ist1.conv with readySeen := true } }
    if ist.conv.nextRequested ∧ p.awaitReadyStatusBeforeNextRequest then
      scheduleAsync ist2 HandlerEffect.cancelCurrent
    else ist2
  | .disconnectFiring =>
    let ist1 := emitSync ist (HandlerEffect.dollarNext (uninitializedValue p))
    scheduleAsync ist1 HandlerEffect.cancelCurrent

/-- Drain the async scheduler queue after the synchronous work of the
instant. -/
def drain {TRes TReq TErr : Type} (ist : InstantState TRes TReq TErr) :
    InstantState TRes TReq TErr :=
  ist.pendingAsync.foldl emitSync { ist with pendingAsync := [] }

/-- Run one logical instant: all simultaneous firings, then the scheduler
queue. -/
def runInstant {TRes TReq TErr : Type} (p : HandlerParams TRes)
    (c : Conversation TRes TReq TErr) (fs : List (Firing TRes TErr)) :
    InstantState TRes TReq TErr :=
  drain (fs.foldl (fire p) { conv := c, log := [], pendingAsync := [] })

/-- A concrete serializer that throws on payload 0 and serializes any other
payload to itself, used to exercise the serializer-failure path. -/
def badSerializer : Nat → Except String Nat :=
  fun n => if n = 0 then .error "boom" else .ok n

/-!
Helper lemmas about the outbound queue.
-/

namespace Outbound

theorem foldl_subjectNext_active {T U : Type} (l : List T) (s : Outbound T U)
    (hact : s.consumerActive = true) (hstop : s.isStopped = false)
    (hok : ∀ v ∈ l, (s.serializer v).isOk = true) :
    l.foldl subjectNext s =
      { s with delivered := s.delivered ++ serializeOks s.serializer l } := by
  induction l generalizing s with
  | nil => simp [serializeOks]
  | cons v l ih =>
    obtain ⟨u, hu⟩ : ∃ u, s.serializer v = .ok u := by
      have h := hok v (by simp)
      cases hv : s.serializer v with
      | ok u => exact ⟨u, rfl⟩
      | error e => rw [hv] at h; simp [Except.isOk, Except.toBool] at h
    have hstep : subjectNext s v = { s with delivered := s.delivered ++ [u] } := by
      simp [subjectNext, hstop, deliverOne, hact, hu]
    rw [List.foldl_cons, hstep,
      ih { s with delivered := s.delivered ++ [u] } hact hstop
        (fun w hw => hok w (List.mem_cons_of_mem _ hw))]
    simp [serializeOks, hu, Except.toOption]

theorem run_sends_buffering {T U : Type} (l : List T) (s : Outbound T U)
    (hc : s.closed = false) (hact : s.consumerActive = false) :
    run s (sends l) = .ok { s with queuedValues := s.queuedValues ++ l } := by
  induction l generalizing s with
  | nil => simp [sends, run]
  | cons v l ih =>
    have hstep : applyOp s (Op.send v) =
        .ok { s with queuedValues := s.queuedValues ++ [v] } := by
      simp [applyOp, next, hc, hact]
    rw [sends, List.map_cons]
    rw [show run s (Op.send v :: l.map Op.send) =
      run { s with queuedValues := s.queuedValues ++ [v] } (l.map Op.send) by
        simp [run, hstep]]
    rw [show (l.map Op.send) = sends l from rfl,
      ih { s with queuedValues := s.queuedValues ++ [v] } hc hact]
    simp

theorem run_sends_active {T U : Type} (l : List T) (s : Outbound T U)
    (hc : s.closed = false) (hact : s.consumerActive = true)
    (hstop : s.isStopped = false)
    (hok : ∀ v ∈ l, (s.serializer v).isOk = true) :
    run s (sends l) =
      .ok { s with delivered := s.delivered ++ serializeOks s.serializer l } := by
  induction l generalizing s with
  | nil => simp [sends, run, serializeOks]
  | cons v l ih =>
    obtain ⟨u, hu⟩ : ∃ u, s.serializer v = .ok u := by
      have h := hok v (by simp)
      cases hv : s.serializer v with
      | ok u => exact ⟨u, rfl⟩
      | error e => rw [hv] at h; simp [Except.isOk, Except.toBool] at h
    have hstep : applyOp s (Op.send v) =
        .ok { s with delivered := s.delivered ++ [u] } := by
      simp [applyOp, next, hc, hact, subjectNext, hstop, deliverOne, hu]
    rw [sends, List.map_cons]
    rw [show run s (Op.send v :: l.map Op.send) =
      run { s with delivered := s.delivered ++ [u] } (l.map Op.send) by
        simp [run, hstep]]
    rw [show (l.map Op.send) = sends l from rfl,
      ih { s with delivered := s.delivered ++ [u] } hc hact hstop
        (fun w hw => hok w (List.mem_cons_of_mem _ hw))]
    simp [serializeOks, hu, Except.toOption]

theorem subscribe_flushes {T U : Type} (s : Outbound T U)
    (hstop : s.isStopped = false)
    (hok : ∀ v ∈ s.queuedValues, (s.serializer v).isOk = true) :
    subscribe s =
      { s with consumerActive := true, queuedValues := [],
               delivered := s.delivered ++ serializeOks s.serializer s.queuedValues } := by
  obtain ⟨ser, c, st, a, q, d, r⟩ := s
  dsimp only at hstop hok ⊢
  subst hstop
  have h := foldl_subjectNext_active q
    (⟨ser, c, false, true, q, d, r⟩ : Outbound T U) rfl rfl hok
  show { (List.foldl subjectNext (⟨ser, c, false, true, q, d, r⟩ : Outbound T U) q) with
         queuedValues := [] } = _
  rw [h]

theorem run_append {T U : Type} (l1 l2 : List (Op T)) (s : Outbound T U) :
    run s (l1 ++ l2) =
      match run s l1 with
      | .ok s1 => run s1 l2
      | .error e => .error e := by
  induction l1 generalizing s with
  | nil => simp [run]
  | cons op l1 ih =>
    show (match applyOp s op with
          | .ok s1 => run s1 (l1 ++ l2)
          | .error e => .error e) =
      match (match applyOp s op with
             | .ok s1 => run s1 l1
             | .error e => .error e) with
      | .ok s1 => run s1 l2
      | .error e => .error e
    cases applyOp s op with
    | ok s1 => exact ih s1
    | error e => rfl

end Outbound

/-!
Claim theorems.
-/

/-- C1: every payload passed to WebSocketConnector.send before a consumer
subscribes to the requests queue is, once a consumer attaches, delivered
exactly once and in insertion order with the configured serializer applied,
and payloads sent after the handoff keep being delivered in order: the final
delivered list is exactly the serialization of all payloads in submission
order, the buffer is empty and no error was reported. -/
theorem c1_outbound_queue_fifo {T U : Type} (ser : T → Except String U)
    (ps qs : List T) (hok : ∀ v ∈ ps ++ qs, (ser v).isOk = true) :
    Outbound.run (Outbound.init ser)
        (Outbound.sends ps ++ Outbound.Op.subscribe :: Outbound.sends qs) =
      .ok { serializer := ser, closed := false, isStopped := false,
            consumerActive := true, queuedValues := [],
            delivered := Outbound.serializeOks ser (ps ++ qs), reported := [] } := by
  have hps : ∀ v ∈ ps, (ser v).isOk = true :=
    fun v hv => hok v (List.mem_append_left _ hv)
  have hqs : ∀ v ∈ qs, (ser v).isOk = true :=
    fun v hv => hok v (List.mem_append_right _ hv)
  rw [Outbound.run_append]
  rw [Outbound.run_sends_buffering ps (Outbound.init ser) rfl rfl]
  show Outbound.run ({ Outbound.init ser with queuedValues := [] ++ ps })
      (Outbound.Op.subscribe :: Outbound.sends qs) = _
  rw [show ([] ++ ps : List T) = ps from by simp]
  show (match Outbound.applyOp { Outbound.init ser with queuedValues := ps }
          Outbound.Op.subscribe with
        | .ok s1 => Outbound.run s1 (Outbound.sends qs)
        | .error e => .error e) = _
  rw [show Outbound.applyOp { Outbound.init ser with queuedValues := ps }
        Outbound.Op.subscribe =
      .ok (Outbound.subscribe { Outbound.init ser with queuedValues := ps }) from rfl]
  rw [Outbound.subscribe_flushes { Outbound.init ser with queuedValues := ps } rfl hps]
  show Outbound.run
      { serializer := ser, closed := false, isStopped := false,
        consumerActive := true, queuedValues := [],
        delivered := [] ++ Outbound.serializeOks ser ps, reported := [] }
      (Outbound.sends qs) = _
  rw [Outbound.run_sends_active qs _ rfl rfl rfl hqs]
  simp [Outbound.serializeOks]

/-- C2: connect while an events subscription exists throws the double-connect
error, and disconnect while no events subscription exists throws the
not-connected error; in both cases the call throws before producing any
successor state, so the connector state is unchanged. -/
theorem c2_connect_disconnect_guards (s1 s2 : GuardState)
    (h1 : s1.hasEventsSubscription = true)
    (h2 : s2.hasEventsSubscription = false) :
    GuardState.connect s1 = .error "socket connection is already opened" ∧
    GuardState.disconnect s2 = .error "socket connection was not yet established" := by
  constructor
  · simp [GuardState.connect, h1]
  · simp [GuardState.disconnect, h2]

/-- Witness for C2 at concrete states. -/
theorem c2_connect_disconnect_guards_witness :
    ({ hasEventsSubscription := true,
       status := ConnectionStatus.connected : GuardState }).hasEventsSubscription = true ∧
    GuardState.initial.hasEventsSubscription = false ∧
    (GuardState.connect { hasEventsSubscription := true, status := ConnectionStatus.connected } =
        .error "socket connection is already opened" ∧
      GuardState.disconnect GuardState.initial =
        .error "socket connection was not yet established") :=
  ⟨rfl, rfl, c2_connect_disconnect_guards
    { hasEventsSubscription := true, status := ConnectionStatus.connected }
    GuardState.initial rfl rfl⟩

/-- C4 counterexample: on a fresh connector, connect succeeds, disconnect
succeeds, and a subsequent connect succeeds again instead of being rejected,
because disconnect clears the eventsSubscription field that the connect guard
checks.  This refutes the claim that after disconnect a further connect call
fails. -/
theorem c4_reuse_after_disconnect_cex :
    GuardState.connect GuardState.initial =
      .ok { hasEventsSubscription := true, status := ConnectionStatus.uninitialized } ∧
    GuardState.disconnect
        { hasEventsSubscription := true, status := ConnectionStatus.uninitialized } =
      .ok { hasEventsSubscription := false, status := ConnectionStatus.disconnected } ∧
    GuardState.connect
        { hasEventsSubscription := false, status := ConnectionStatus.disconnected } =
      .ok { hasEventsSubscription := true, status := ConnectionStatus.disconnected } := by
  exact ⟨rfl, rfl, rfl⟩

/-- C4 amended: a connector does not enforce a single connect/disconnect
cycle: after any successful disconnect, a subsequent connect call is accepted
and installs a new events subscription, because disconnect resets the field
guarding connect. -/
theorem c4_reconnect_after_disconnect (s s1 : GuardState)
    (h : GuardState.disconnect s = .ok s1) :
    GuardState.connect s1 = .ok { s1 with hasEventsSubscription := true } := by
  unfold GuardState.disconnect at h
  split at h
  · injection h with h1
    subst h1
    rfl
  · cases h

/-- Witness for the amended C4 at a concrete connected state. -/
theorem c4_reconnect_after_disconnect_witness :
    GuardState.disconnect { hasEventsSubscription := true, status := ConnectionStatus.connected } =
      .ok { hasEventsSubscription := false, status := ConnectionStatus.disconnected } ∧
    GuardState.connect { hasEventsSubscription := false, status := ConnectionStatus.disconnected } =
      .ok { hasEventsSubscription := true, status := ConnectionStatus.disconnected } :=
  ⟨rfl, c4_reconnect_after_disconnect
    { hasEventsSubscription := true, status := ConnectionStatus.connected }
    { hasEventsSubscription := false, status := ConnectionStatus.disconnected } rfl⟩

/-- Witness for C1 at concrete payloads. -/
theorem c1_outbound_queue_fifo_witness :
    (∀ v ∈ ([1, 2] ++ [3] : List Nat),
        ((fun n : Nat => (Except.ok (n + 10) : Except String Nat)) v).isOk = true) ∧
    Outbound.run (Outbound.init fun n : Nat => (Except.ok (n + 10) : Except String Nat))
        (Outbound.sends [1, 2] ++ Outbound.Op.subscribe :: Outbound.sends [3]) =
      .ok { serializer := fun n : Nat => (Except.ok (n + 10) : Except String Nat),
            closed := false, isStopped := false,
            consumerActive := true, queuedValues := [],
            delivered := Outbound.serializeOks
              (fun n : Nat => (Except.ok (n + 10) : Except String Nat)) ([1, 2] ++ [3]),
            reported := [] } :=
  ⟨by decide, c1_outbound_queue_fifo (fun n : Nat => .ok (n + 10)) [1, 2] [3] (by decide)⟩

/-- A stopped subject delivers nothing when queued values are flushed through
super.next. -/
theorem foldl_subjectNext_stopped {T U : Type} (l : List T) (s : Outbound T U)
    (h : s.isStopped = true) : l.foldl Outbound.subjectNext s = s := by
  induction l with
  | nil => rfl
  | cons v l ih =>
    rw [List.foldl_cons, show Outbound.subjectNext s v = s by
      simp [Outbound.subjectNext, h]]
    exact ih

/-- Once the requests queue is stopped (and not closed, with no consumer, as
after complete), any sequence of operations succeeds without any synchronous
throw and without ever delivering anything, and the state stays stopped. -/
theorem stopped_run_invariant {T U : Type} :
    ∀ (ops : List (Outbound.Op T)) (s : Outbound T U),
      s.isStopped = true → s.closed = false → s.consumerActive = false →
      ∃ s1, Outbound.run s ops = .ok s1 ∧ s1.delivered = s.delivered ∧
        s1.isStopped = true ∧ s1.closed = false ∧ s1.consumerActive = false := by
  intro ops
  induction ops with
  | nil =>
    intro s h1 h2 h3
    exact ⟨s, rfl, rfl, h1, h2, h3⟩
  | cons op ops ih =>
    intro s h1 h2 h3
    cases op with
    | send v =>
      have hstep : Outbound.applyOp s (Outbound.Op.send v) =
          .ok { s with queuedValues := s.queuedValues ++ [v] } := by
        simp [Outbound.applyOp, Outbound.next, h2, h3]
      obtain ⟨s1, hrun, hd, hs, hc, ha⟩ :=
        ih { s with queuedValues := s.queuedValues ++ [v] } h1 h2 h3
      exact ⟨s1, by simp [Outbound.run, hstep, hrun], hd, hs, hc, ha⟩
    | subscribe =>
      have hstep : Outbound.applyOp s Outbound.Op.subscribe =
          .ok { s with queuedValues := [] } := by
        have hfold := foldl_subjectNext_stopped s.queuedValues s h1
        simp [Outbound.applyOp, Outbound.subscribe, h1, hfold]
      obtain ⟨s1, hrun, hd, hs, hc, ha⟩ := ih { s with queuedValues := [] } h1 h2 h3
      exact ⟨s1, by simp [Outbound.run, hstep, hrun], hd, hs, hc, ha⟩
    | unsubscribeConsumer =>
      have hstep : Outbound.applyOp s Outbound.Op.unsubscribeConsumer =
          .ok { s with consumerActive := false } := rfl
      obtain ⟨s1, hrun, hd, hs, hc, ha⟩ := ih { s with consumerActive := false } h1 h2 rfl
      exact ⟨s1, by simp [Outbound.run, hstep, hrun], hd, hs, hc, ha⟩
    | complete =>
      have hstep : Outbound.applyOp s Outbound.Op.complete = .ok s := by
        simp [Outbound.applyOp, Outbound.complete, h1]
      obtain ⟨s1, hrun, hd, hs, hc, ha⟩ := ih s h1 h2 h3
      exact ⟨s1, by simp [Outbound.run, hstep, hrun], hd, hs, hc, ha⟩

/-- C9: after the transport signals permanent completion the events observer
completes the requests queue; from then on every send succeeds silently (no
error is raised to the caller) and no payload is ever delivered to any
present or future consumer, whatever operations follow. -/
theorem c9_send_after_completion_discarded {T U : Type} (s0 : Outbound T U)
    (hc : s0.closed = false) (hstop : s0.isStopped = false) :
    ∀ ops : List (Outbound.Op T), ∃ s1,
      Outbound.run (Outbound.complete s0) ops = .ok s1 ∧
      s1.delivered = s0.delivered ∧
      s1.isStopped = true ∧ s1.closed = false ∧ s1.consumerActive = false := by
  intro ops
  have hcs : Outbound.complete s0 =
      { s0 with isStopped := true, consumerActive := false } := by
    simp [Outbound.complete, hstop]
  rw [hcs]
  exact stopped_run_invariant ops { s0 with isStopped := true, consumerActive := false }
    rfl hc rfl

/-- Witness for C9: a completed queue swallows later sends and a later
subscribe delivers nothing. -/
theorem c9_send_after_completion_discarded_witness :
    (Outbound.init fun n : Nat => (Except.ok n : Except String Nat)).closed = false ∧
    (Outbound.init fun n : Nat => (Except.ok n : Except String Nat)).isStopped = false ∧
    (∃ s1, Outbound.run
        (Outbound.complete (Outbound.init fun n : Nat => (Except.ok n : Except String Nat)))
        [Outbound.Op.send 5, Outbound.Op.subscribe, Outbound.Op.send 6] = .ok s1 ∧
      s1.delivered = (Outbound.init fun n : Nat => (Except.ok n : Except String Nat)).delivered ∧
      s1.isStopped = true ∧ s1.closed = false ∧ s1.consumerActive = false) :=
  ⟨rfl, rfl, c9_send_after_completion_discarded _ rfl rfl
    [Outbound.Op.send 5, Outbound.Op.subscribe, Outbound.Op.send 6]⟩

/-- C5 counterexample: with a consumer attached, sending a payload the
serializer throws on (payload 0) terminates the requests subscription, so the
next payload (1) is not delivered on the current connection but buffered for
a future consumer; the same send of payload 1 without the failing payload is
delivered.  This refutes the part of the claim saying the delivery of other
queued or subsequent payloads is unaffected. -/
theorem c5_serializer_failure_cex :
    (Outbound.run (Outbound.init badSerializer)
        [Outbound.Op.subscribe, Outbound.Op.send 0, Outbound.Op.send 1]).map
      (fun s => (s.delivered, s.queuedValues, s.reported)) =
        .ok ([], [1], ["boom"]) ∧
    (Outbound.run (Outbound.init badSerializer)
        [Outbound.Op.subscribe, Outbound.Op.send 1]).map
      (fun s => (s.delivered, s.queuedValues, s.reported)) =
        .ok ([1], [], []) := by
  exact ⟨rfl, rfl⟩

/-- C5 amended: send never throws synchronously, and a serializer failure is
surfaced asynchronously and rejects only that payload; however it terminates
the current requests subscription, so payloads sent afterwards are buffered
and only delivered, in order, to the next consumer that attaches (on a later
reconnect) instead of being delivered on the current connection. -/
theorem c5_send_never_throws_failure_local {T U : Type} (s : Outbound T U)
    (v : T) (e : String) (qs : List T)
    (hc : s.closed = false) (hact : s.consumerActive = true)
    (hstop : s.isStopped = false) (hq : s.queuedValues = [])
    (hser : s.serializer v = .error e)
    (hqs : ∀ w ∈ qs, (s.serializer w).isOk = true) :
    (∀ w, ∃ s1, Outbound.next s w = .ok s1) ∧
    Outbound.next s v =
      .ok { s with consumerActive := false, reported := s.reported ++ [e] } ∧
    Outbound.run { s with consumerActive := false, reported := s.reported ++ [e] }
        (Outbound.sends qs ++ [Outbound.Op.subscribe]) =
      .ok { s with consumerActive := true, queuedValues := [],
                   reported := s.reported ++ [e],
                   delivered := s.delivered ++ Outbound.serializeOks s.serializer qs } := by
  refine ⟨?_, ?_, ?_⟩
  · intro w
    by_cases ha : s.consumerActive = true
    · refine ⟨Outbound.subjectNext s w, ?_⟩
      simp [Outbound.next, hc, ha]
    · have ha2 : s.consumerActive = false := by simpa using ha
      refine ⟨{ s with queuedValues := s.queuedValues ++ [w] }, ?_⟩
      simp [Outbound.next, hc, ha2]
  · simp [Outbound.next, hc, hact, Outbound.subjectNext, hstop, Outbound.deliverOne, hser]
  · obtain ⟨ser, c, st, a, q, d, r⟩ := s
    dsimp only at hc hact hstop hq hser hqs ⊢
    subst hc hact hstop hq
    rw [Outbound.run_append]
    rw [Outbound.run_sends_buffering qs
      (⟨ser, false, false, false, [], d, r ++ [e]⟩ : Outbound T U) rfl rfl]
    show (Except.ok (Outbound.subscribe
        (⟨ser, false, false, false, qs, d, r ++ [e]⟩ : Outbound T U))
      : Except String (Outbound T U)) = _
    rw [Outbound.subscribe_flushes
      (⟨ser, false, false, false, qs, d, r ++ [e]⟩ : Outbound T U) rfl hqs]

/-- Witness for the amended C5 with the concrete throwing serializer. -/
theorem c5_send_never_throws_failure_local_witness :
    (let s : Outbound Nat Nat :=
      { serializer := badSerializer, closed := false, isStopped := false,
        consumerActive := true, queuedValues := [], delivered := [], reported := [] }
     s.closed = false ∧ s.consumerActive = true ∧ s.isStopped = false ∧
     s.queuedValues = [] ∧ s.serializer 0 = .error "boom" ∧
     (∀ w ∈ [1, 2], (s.serializer w).isOk = true) ∧
     ((∀ w, ∃ s1, Outbound.next s w = .ok s1) ∧
      Outbound.next s 0 =
        .ok { s with consumerActive := false, reported := s.reported ++ ["boom"] } ∧
      Outbound.run { s with consumerActive := false, reported := s.reported ++ ["boom"] }
          (Outbound.sends [1, 2] ++ [Outbound.Op.subscribe]) =
        .ok { s with consumerActive := true, queuedValues := [],
                     reported := s.reported ++ ["boom"],
                     delivered := s.delivered ++ Outbound.serializeOks s.serializer [1, 2] })) :=
  ⟨rfl, rfl, rfl, rfl, rfl, by decide,
    c5_send_never_throws_failure_local _ 0 "boom" [1, 2] rfl rfl rfl rfl rfl (by decide)⟩

/-!
Helper lemmas about the connect pipeline machine.
-/

/-- One appended event runs on top of the previous run. -/
theorem ConnState.run_concat (cfg : Option RetryCfg) (tr : List ConnEvent)
    (e : ConnEvent) :
    ConnState.run cfg (tr ++ [e]) = ConnState.step cfg (ConnState.run cfg tr) e := by
  unfold ConnState.run
  rw [List.foldl_append]
  rfl

/-- The error path never invokes onSuccess. -/
theorem errStep_onSuccessCalls (cfg : Option RetryCfg) (m : String) (s : ConnState) :
    (ConnState.errStep cfg m s).onSuccessCalls = s.onSuccessCalls := by
  unfold ConnState.errStep
  cases cfg with
  | none => rfl
  | some rc =>
    dsimp only
    split
    · split <;> rfl
    · rfl

/-- An open always leaves the status subject holding connected. -/
theorem openStep_status (cfg : Option RetryCfg) (s : ConnState) :
    (ConnState.openStep cfg s).status = ConnectionStatus.connected := rfl

/-- A message never changes the status value. -/
theorem msgStep_status (cfg : Option RetryCfg) (s : ConnState) :
    (ConnState.msgStep cfg s).status = s.status := by
  cases cfg <;> rfl

/-- A trace with no failure event never reaches the reconnecting status,
whatever state with a non-reconnecting status it starts from. -/
theorem no_failure_status_not_reconnecting (cfg : Option RetryCfg) :
    ∀ (tr : List ConnEvent) (s : ConnState),
      s.status ≠ ConnectionStatus.reconnecting →
      (∀ m, ConnEvent.errEvt m ∉ tr) →
      (∀ r, ConnEvent.forceReconnectEvt r ∉ tr) →
      (tr.foldl (ConnState.step cfg) s).status ≠ ConnectionStatus.reconnecting := by
  intro tr
  induction tr with
  | nil => intro s h _ _; exact h
  | cons e tr ih =>
    intro s h hne hnf
    rw [List.foldl_cons]
    refine ih _ ?_ (fun m hm => hne m (List.mem_cons_of_mem _ hm))
      (fun r hr => hnf r (List.mem_cons_of_mem _ hr))
    cases e with
    | openEvt =>
      by_cases hterm : (s.terminalError).isSome
      · simpa [ConnState.step, hterm] using h
      · rw [show ConnState.step cfg s ConnEvent.openEvt = ConnState.openStep cfg s by
          simp [ConnState.step, hterm]]
        rw [Ne, openStep_status]
        simp
    | msgEvt =>
      by_cases hterm : (s.terminalError).isSome
      · simpa [ConnState.step, hterm] using h
      · rw [show ConnState.step cfg s ConnEvent.msgEvt = ConnState.msgStep cfg s by
          simp [ConnState.step, hterm]]
        rw [Ne, msgStep_status]
        exact h
    | errEvt m => exact absurd (List.mem_cons_self _ _) (hne m)
    | forceReconnectEvt r => exact absurd (List.mem_cons_self _ _) (hnf r)

/-- With an unbounded retry configuration, an error increments the retry
counter and pushes the reconnecting status exactly when the counter was
zero. -/
theorem errStep_unbounded (rc : RetryCfg) (hcount : rc.count = none) (m : String)
    (s : ConnState) :
    ConnState.errStep (some rc) m s =
      if s.retryCount = 0 then
        { s with retryCount := 1, status := ConnectionStatus.reconnecting,
                 reconnectingEmits := s.reconnectingEmits + 1 }
      else { s with retryCount := s.retryCount + 1 } := by
  unfold ConnState.errStep
  dsimp only
  rw [hcount]
  by_cases h0 : s.retryCount = 0
  · simp [h0]
  · have h1 : ¬ (s.retryCount + 1 = 1) := by omega
    simp [h0, h1]

/-- With an unbounded retry configuration, the number of reconnecting status
emissions along a trace equals the number of fresh failures, where freshness
is measured against the last received message (resetOnSuccess counts source
emissions), not against transport opens. -/
theorem reconnectingEmits_fold (rc : RetryCfg) (hcount : rc.count = none) :
    ∀ (tr : List ConnEvent) (s : ConnState) (b : Bool),
      s.terminalError = none → (s.retryCount = 0 ↔ b = false) →
      (tr.foldl (ConnState.step (some rc)) s).reconnectingEmits =
        s.reconnectingEmits + countFreshFailures tr b := by
  intro tr
  induction tr with
  | nil => intro s b h hb; simp [countFreshFailures]
  | cons e tr ih =>
    intro s b hterm hb
    rw [List.foldl_cons]
    have hterm2 : (s.terminalError).isSome = false := by simp [hterm]
    cases e with
    | openEvt =>
      rw [show ConnState.step (some rc) s ConnEvent.openEvt =
          ConnState.openStep (some rc) s by simp [ConnState.step, hterm2]]
      have h1 : (ConnState.openStep (some rc) s).terminalError = s.terminalError := by
        unfold ConnState.openStep; dsimp only; split <;> rfl
      have h2 : (ConnState.openStep (some rc) s).retryCount = s.retryCount := by
        unfold ConnState.openStep; dsimp only; split <;> rfl
      have h3 : (ConnState.openStep (some rc) s).reconnectingEmits =
          s.reconnectingEmits := by
        unfold ConnState.openStep; dsimp only; split <;> rfl
      rw [countFreshFailures, ih _ b (by rw [h1]; exact hterm) (by rw [h2]; exact hb), h3]
    | msgEvt =>
      rw [show ConnState.step (some rc) s ConnEvent.msgEvt = { s with retryCount := 0 } by
        simp [ConnState.step, hterm2, ConnState.msgStep]]
      rw [countFreshFailures, ih { s with retryCount := 0 } false hterm (by simp)]
    | errEvt m =>
      rw [show ConnState.step (some rc) s (ConnEvent.errEvt m) =
          ConnState.errStep (some rc) m s by simp [ConnState.step, hterm2]]
      rw [errStep_unbounded rc hcount m s, countFreshFailures]
      by_cases h0 : s.retryCount = 0
      · rw [if_pos h0,
          ih { s with retryCount := 1, status := ConnectionStatus.reconnecting, reconnectingEmits := s.reconnectingEmits + 1 } true hterm (by simp)]
        have hbf : b = false := hb.mp h0
        subst hbf
        rw [show (if false = true then 0 else 1 : Nat) = 1 from rfl]
        dsimp only
        omega
      · rw [if_neg h0, ih { s with retryCount := s.retryCount + 1 } true hterm (by simp)]
        have hbt : b = true := by
          cases b with
          | false => exact absurd (hb.mpr rfl) h0
          | true => rfl
        subst hbt
        rw [show (if true = true then 0 else 1 : Nat) = 0 from rfl]
        dsimp only
        omega
    | forceReconnectEvt r =>
      rw [show ConnState.step (some rc) s (ConnEvent.forceReconnectEvt r) =
          ConnState.errStep (some rc) (r.getD FORCE_RECONNECT_MESSAGE) s by
        simp [ConnState.step, hterm2, ConnState.forceStep]]
      rw [errStep_unbounded rc hcount _ s, countFreshFailures]
      by_cases h0 : s.retryCount = 0
      · rw [if_pos h0,
          ih { s with retryCount := 1, status := ConnectionStatus.reconnecting, reconnectingEmits := s.reconnectingEmits + 1 } true hterm (by simp)]
        have hbf : b = false := hb.mp h0
        subst hbf
        rw [show (if false = true then 0 else 1 : Nat) = 1 from rfl]
        dsimp only
        omega
      · rw [if_neg h0, ih { s with retryCount := s.retryCount + 1 } true hterm (by simp)]
        have hbt : b = true := by
          cases b with
          | false => exact absurd (hb.mpr rfl) h0
          | true => rfl
        subst hbt
        rw [show (if true = true then 0 else 1 : Nat) = 0 from rfl]
        dsimp only
        omega

/-- C3: with a retryConfig carrying onSuccess, appending a transport open to
any trace bumps the onSuccess invocation count by one exactly when the live
pipeline currently holds the reconnecting status (a completed reconnection),
no other event ever bumps it, and a trace containing no failure never holds
the reconnecting status, so the initial connection never fires onSuccess. -/
theorem c3_onsuccess_once_per_reconnection (rc : RetryCfg)
    (hcb : rc.hasOnSuccess = true) (tr : List ConnEvent) :
    ((ConnState.run (some rc) (tr ++ [ConnEvent.openEvt])).onSuccessCalls =
      (ConnState.run (some rc) tr).onSuccessCalls +
        (if (ConnState.run (some rc) tr).terminalError = none ∧
            (ConnState.run (some rc) tr).status = ConnectionStatus.reconnecting
         then 1 else 0)) ∧
    (∀ e : ConnEvent, e ≠ ConnEvent.openEvt →
      (ConnState.run (some rc) (tr ++ [e])).onSuccessCalls =
        (ConnState.run (some rc) tr).onSuccessCalls) ∧
    ((∀ m, ConnEvent.errEvt m ∉ tr) →
      (∀ r, ConnEvent.forceReconnectEvt r ∉ tr) →
      (ConnState.run (some rc) tr).status ≠ ConnectionStatus.reconnecting) := by
  refine ⟨?_, ?_, ?_⟩
  · rw [ConnState.run_concat]
    generalize ConnState.run (some rc) tr = s
    unfold ConnState.step
    cases hterm : s.terminalError with
    | some m => simp [hterm]
    | none =>
      rw [if_neg (by simp [hterm])]
      unfold ConnState.openStep
      by_cases hst : s.status = ConnectionStatus.reconnecting
      · simp [hst, hcb, hterm]
      · simp [hst, hcb, hterm]
  · intro e he
    rw [ConnState.run_concat]
    generalize ConnState.run (some rc) tr = s
    unfold ConnState.step
    by_cases hterm : (s.terminalError).isSome
    · simp [hterm]
    · cases e with
      | openEvt => exact absurd rfl he
      | msgEvt => simp [hterm, ConnState.msgStep]
      | errEvt m => simp [hterm, errStep_onSuccessCalls]
      | forceReconnectEvt r => simp [hterm, ConnState.forceStep, errStep_onSuccessCalls]
  · intro hne hnf
    exact no_failure_status_not_reconnecting (some rc) tr ConnState.initial
      (by simp [ConnState.initial]) hne hnf

/-- Witness for C3 on the trace with one failure then the reconnection. -/
theorem c3_onsuccess_once_per_reconnection_witness :
    ({ hasOnSuccess := true, count := none : RetryCfg }).hasOnSuccess = true ∧
    (((ConnState.run (some { hasOnSuccess := true, count := none })
        ([ConnEvent.errEvt "boom"] ++ [ConnEvent.openEvt])).onSuccessCalls =
      (ConnState.run (some { hasOnSuccess := true, count := none })
        [ConnEvent.errEvt "boom"]).onSuccessCalls +
        (if (ConnState.run (some { hasOnSuccess := true, count := none })
              [ConnEvent.errEvt "boom"]).terminalError = none ∧
            (ConnState.run (some { hasOnSuccess := true, count := none })
              [ConnEvent.errEvt "boom"]).status = ConnectionStatus.reconnecting
         then 1 else 0)) ∧
    (∀ e : ConnEvent, e ≠ ConnEvent.openEvt →
      (ConnState.run (some { hasOnSuccess := true, count := none })
          ([ConnEvent.errEvt "boom"] ++ [e])).onSuccessCalls =
        (ConnState.run (some { hasOnSuccess := true, count := none })
          [ConnEvent.errEvt "boom"]).onSuccessCalls) ∧
    ((∀ m, ConnEvent.errEvt m ∉ [ConnEvent.errEvt "boom"]) →
      (∀ r, ConnEvent.forceReconnectEvt r ∉ [ConnEvent.errEvt "boom"]) →
      (ConnState.run (some { hasOnSuccess := true, count := none })
        [ConnEvent.errEvt "boom"]).status ≠ ConnectionStatus.reconnecting)) :=
  ⟨rfl, c3_onsuccess_once_per_reconnection { hasOnSuccess := true, count := none }
    rfl [ConnEvent.errEvt "boom"]⟩

/-- C6: without a retryConfig, a forceReconnect on a live pipeline terminates
the events feed with an error carrying exactly the supplied reason (the fixed
sentinel when none is supplied), sets the status to disconnected, and prints
the warning. -/
theorem c6_force_reconnect_terminates_feed (s : ConnState) (r : Option String)
    (h : s.terminalError = none) :
    (ConnState.step none s (ConnEvent.forceReconnectEvt r)).terminalError =
      some (r.getD FORCE_RECONNECT_MESSAGE) ∧
    (ConnState.step none s (ConnEvent.forceReconnectEvt r)).status =
      ConnectionStatus.disconnected ∧
    (ConnState.step none s (ConnEvent.forceReconnectEvt r)).warned = true ∧
    (r = none →
      (ConnState.step none s (ConnEvent.forceReconnectEvt r)).terminalError =
        some "force reconnect") := by
  refine ⟨?_, ?_, ?_, ?_⟩
  · simp [ConnState.step, h, ConnState.forceStep, ConnState.errStep]
  · simp [ConnState.step, h, ConnState.forceStep, ConnState.errStep]
  · simp [ConnState.step, h, ConnState.forceStep, ConnState.errStep]
  · intro hr
    subst hr
    simp [ConnState.step, h, ConnState.forceStep, ConnState.errStep,
      FORCE_RECONNECT_MESSAGE]

/-- Witness for C6 on a connected pipeline with the default reason. -/
theorem c6_force_reconnect_terminates_feed_witness :
    ({ status := ConnectionStatus.connected, retryCount := 0, onSuccessCalls := 0,
       reconnectingEmits := 0, terminalError := none,
       warned := false : ConnState }).terminalError = none ∧
    ((ConnState.step none
        { status := ConnectionStatus.connected, retryCount := 0, onSuccessCalls := 0,
          reconnectingEmits := 0, terminalError := none, warned := false }
        (ConnEvent.forceReconnectEvt none)).terminalError =
      some ((none : Option String).getD FORCE_RECONNECT_MESSAGE) ∧
    (ConnState.step none
        { status := ConnectionStatus.connected, retryCount := 0, onSuccessCalls := 0,
          reconnectingEmits := 0, terminalError := none, warned := false }
        (ConnEvent.forceReconnectEvt none)).status = ConnectionStatus.disconnected ∧
    (ConnState.step none
        { status := ConnectionStatus.connected, retryCount := 0, onSuccessCalls := 0,
          reconnectingEmits := 0, terminalError := none, warned := false }
        (ConnEvent.forceReconnectEvt none)).warned = true ∧
    ((none : Option String) = none →
      (ConnState.step none
          { status := ConnectionStatus.connected, retryCount := 0, onSuccessCalls := 0,
            reconnectingEmits := 0, terminalError := none, warned := false }
          (ConnEvent.forceReconnectEvt none)).terminalError =
        some "force reconnect")) :=
  ⟨rfl, c6_force_reconnect_terminates_feed
    { status := ConnectionStatus.connected, retryCount := 0, onSuccessCalls := 0,
      reconnectingEmits := 0, terminalError := none, warned := false } none rfl⟩

/-- C10 counterexample: with an unbounded retryConfig, the trace error, open,
error starts a second reconnection episode at the second error (the preceding
open succeeded), yet the reconnecting status is emitted only once in the
whole trace (at the first error) and the second episode begins with retry
count 2 and the status still reading connected: the first retry attempt of
the second episode does not emit reconnecting, refuting the claim. -/
theorem c10_reconnecting_once_per_episode_cex :
    (ConnState.run (some { hasOnSuccess := false, count := none })
        [ConnEvent.errEvt "e1", ConnEvent.openEvt]).reconnectingEmits = 1 ∧
    (ConnState.run (some { hasOnSuccess := false, count := none })
        [ConnEvent.errEvt "e1", ConnEvent.openEvt,
          ConnEvent.errEvt "e2"]).reconnectingEmits = 1 ∧
    (ConnState.run (some { hasOnSuccess := false, count := none })
        [ConnEvent.errEvt "e1", ConnEvent.openEvt,
          ConnEvent.errEvt "e2"]).retryCount = 2 ∧
    (ConnState.run (some { hasOnSuccess := false, count := none })
        [ConnEvent.errEvt "e1", ConnEvent.openEvt,
          ConnEvent.errEvt "e2"]).status = ConnectionStatus.connected :=
  ⟨rfl, rfl, rfl, rfl⟩

/-- C10 amended: with an unbounded retryConfig, reconnecting is emitted
exactly once per episode of consecutive failures delimited by received
messages, on the failure at which the retry counter is zero: the counter is
reset by resetOnSuccess only when the source emits a message, not when the
transport merely reopens, so an episode whose preceding open produced no
message emits nothing. -/
theorem c10_reconnecting_per_message_episode (rc : RetryCfg)
    (hcount : rc.count = none) (tr : List ConnEvent) :
    (ConnState.run (some rc) tr).reconnectingEmits = countFreshFailures tr false := by
  have h := reconnectingEmits_fold rc hcount tr ConnState.initial false rfl
    (by simp [ConnState.initial])
  simpa [ConnState.run, ConnState.initial] using h

/-- Witness for the amended C10 on a trace with two message-delimited
episodes. -/
theorem c10_reconnecting_per_message_episode_witness :
    ({ hasOnSuccess := false, count := none : RetryCfg }).count = none ∧
    (ConnState.run (some { hasOnSuccess := false, count := none })
        [ConnEvent.errEvt "a", ConnEvent.openEvt, ConnEvent.msgEvt,
          ConnEvent.errEvt "b"]).reconnectingEmits =
      countFreshFailures
        [ConnEvent.errEvt "a", ConnEvent.openEvt, ConnEvent.msgEvt,
          ConnEvent.errEvt "b"] false :=
  ⟨rfl, c10_reconnecting_per_message_episode { hasOnSuccess := false, count := none }
    rfl [ConnEvent.errEvt "a", ConnEvent.openEvt, ConnEvent.msgEvt,
      ConnEvent.errEvt "b"]⟩

/-- C7: while a stream handler request is in flight, a connection status
transition to disconnected or reconnecting resets the visible handler value
to the initial uninitialized-with-default value and tears the in-flight
conversation (its inbound subscription) down. -/
theorem c7_disconnect_resets_handler {TRes TReq TErr : Type}
    (p : HandlerParams TRes) (req : TReq) (s : Conversation TRes TReq TErr)
    (st : ConnectionStatus) (hph : s.phase = ConvPhase.inFlight)
    (hst : st = ConnectionStatus.disconnected ∨ st = ConnectionStatus.reconnecting) :
    convStep p req s (ConvEvent.statusChange st) =
      { s with dollar := uninitializedValue p, phase := ConvPhase.cancelled } := by
  unfold convStep
  rw [hph]
  cases hst with
  | inl h => subst h; simp
  | inr h => subst h; simp

/-- Witness for C7 on a concrete in-flight conversation. -/
theorem c7_disconnect_resets_handler_witness :
    (({ phase := ConvPhase.inFlight,
        dollar := { status := StreamStatus.loading, response := none,
                    request := some 1, error := none },
        readySeen := false, nextRequested := false,
        sent := [1] } : Conversation Nat Nat Nat)).phase = ConvPhase.inFlight ∧
    (ConnectionStatus.disconnected = ConnectionStatus.disconnected ∨
      ConnectionStatus.disconnected = ConnectionStatus.reconnecting) ∧
    convStep (HandlerParams.default Nat) 1
        ({ phase := ConvPhase.inFlight,
           dollar := { status := StreamStatus.loading, response := none,
                       request := some 1, error := none },
           readySeen := false, nextRequested := false,
           sent := [1] } : Conversation Nat Nat Nat)
        (ConvEvent.statusChange ConnectionStatus.disconnected) =
      { phase := ConvPhase.cancelled,
        dollar := uninitializedValue (HandlerParams.default Nat),
        readySeen := false, nextRequested := false, sent := [1] } :=
  ⟨rfl, Or.inl rfl,
    c7_disconnect_resets_handler (HandlerParams.default Nat) 1
      { phase := ConvPhase.inFlight,
        dollar := { status := StreamStatus.loading, response := none,
                    request := some 1, error := none },
        readySeen := false, nextRequested := false, sent := [1] }
      ConnectionStatus.disconnected rfl (Or.inl rfl)⟩

/-- C8: when a ready emission and a cancellation trigger land in the same
logical instant, the ready emission updates the visible value synchronously
while every cancellation is deferred by observeOn(asyncScheduler): with a new
request waiting, the instant produces the ready update strictly before the
cancellation and the final visible value holds the superseded request's last
response; with a simultaneous disconnect, in either arrival order the
cancellation is the last effect of the instant, after the ready update. -/
theorem c8_ready_update_before_cancellation {TRes TReq TErr : Type}
    (p : HandlerParams TRes) (c : Conversation TRes TReq TErr)
    (v : ReadyVal TRes TErr)
    (hawait : p.awaitReadyStatusBeforeNextRequest = true)
    (hnext : c.nextRequested = true) :
    ((runInstant p c [Firing.readyFiring v]).log =
      [HandlerEffect.dollarNext (mergeReady c.dollar v), HandlerEffect.cancelCurrent] ∧
    (runInstant p c [Firing.readyFiring v]).conv.dollar = mergeReady c.dollar v ∧
    (runInstant p c [Firing.readyFiring v]).conv.phase = ConvPhase.cancelled) ∧
    (∀ c2 : Conversation TRes TReq TErr, c2.nextRequested = false →
      (runInstant p c2 [Firing.readyFiring v, Firing.disconnectFiring]).log =
        [HandlerEffect.dollarNext (mergeReady c2.dollar v),
         HandlerEffect.dollarNext (uninitializedValue p),
         HandlerEffect.cancelCurrent] ∧
      (runInstant p c2 [Firing.disconnectFiring, Firing.readyFiring v]).log =
        [HandlerEffect.dollarNext (uninitializedValue p),
         HandlerEffect.dollarNext (mergeReady (uninitializedValue p) v),
         HandlerEffect.cancelCurrent]) := by
  constructor
  · refine ⟨?_, ?_, ?_⟩ <;>
      simp [runInstant, fire, emitSync, scheduleAsync, drain, applyEffect,
        hnext, hawait]
  · intro c2 hc2
    refine ⟨?_, ?_⟩ <;>
      simp [runInstant, fire, emitSync, scheduleAsync, drain, applyEffect, hc2]

/-- Witness for C8 at a concrete in-flight conversation and ready value. -/
theorem c8_ready_update_before_cancellation_witness :
    (HandlerParams.default Nat).awaitReadyStatusBeforeNextRequest = true ∧
    (({ phase := ConvPhase.inFlight,
        dollar := { status := StreamStatus.loading, response := none,
                    request := some 7, error := none },
        readySeen := false, nextRequested := true,
        sent := [7] } : Conversation Nat Nat Nat)).nextRequested = true ∧
    ((runInstant (HandlerParams.default Nat)
        ({ phase := ConvPhase.inFlight,
           dollar := { status := StreamStatus.loading, response := none,
                       request := some 7, error := none },
           readySeen := false, nextRequested := true,
           sent := [7] } : Conversation Nat Nat Nat)
        [Firing.readyFiring (ReadyVal.success 42)]).log =
      [HandlerEffect.dollarNext
          (mergeReady { status := StreamStatus.loading, response := none,
                        request := some 7, error := none } (ReadyVal.success 42)),
        HandlerEffect.cancelCurrent] ∧
    (runInstant (HandlerParams.default Nat)
        ({ phase := ConvPhase.inFlight,
           dollar := { status := StreamStatus.loading, response := none,
                       request := some 7, error := none },
           readySeen := false, nextRequested := true,
           sent := [7] } : Conversation Nat Nat Nat)
        [Firing.readyFiring (ReadyVal.success 42)]).conv.dollar =
      mergeReady { status := StreamStatus.loading, response := none,
                   request := some 7, error := none } (ReadyVal.success 42) ∧
    (runInstant (HandlerParams.default Nat)
        ({ phase := ConvPhase.inFlight,
           dollar := { status := StreamStatus.loading, response := none,
                       request := some 7, error := none },
           readySeen := false, nextRequested := true,
           sent := [7] } : Conversation Nat Nat Nat)
        [Firing.readyFiring (ReadyVal.success 42)]).conv.phase = ConvPhase.cancelled) ∧
    (∀ c2 : Conversation Nat Nat Nat, c2.nextRequested = false →
      (runInstant (HandlerParams.default Nat) c2
          [Firing.readyFiring (ReadyVal.success 42), Firing.disconnectFiring]).log =
        [HandlerEffect.dollarNext (mergeReady c2.dollar (ReadyVal.success 42)),
         HandlerEffect.dollarNext (uninitializedValue (HandlerParams.default Nat)),
         HandlerEffect.cancelCurrent] ∧
      (runInstant (HandlerParams.default Nat) c2
          [Firing.disconnectFiring, Firing.readyFiring (ReadyVal.success 42)]).log =
        [HandlerEffect.dollarNext (uninitializedValue (HandlerParams.default Nat)),
         HandlerEffect.dollarNext
           (mergeReady (uninitializedValue (HandlerParams.default Nat))
             (ReadyVal.success 42)),
         HandlerEffect.cancelCurrent]) :=
  ⟨rfl, rfl,
    c8_ready_update_before_cancellation (HandlerParams.default Nat)
      { phase := ConvPhase.inFlight,
        dollar := { status := StreamStatus.loading, response := none,
                    request := some 7, error := none },
        readySeen := false, nextRequested := true, sent := [7] }
      (ReadyVal.success 42) rfl rfl⟩

end RxjsWs
